import Mathlib

/-!
Verification of the My_Jet flight-ticket booking backend.

The definitions below are a shallow embedding of the Python sources in
`Backend_With_Frontend/` (`models.py`, `crud.py`, `auth.py`, `main.py`).
The MongoDB collections are modelled as lists kept in insertion order;
`find_one` is `List.find?`, `insert_one` appends, `delete_one` removes the
first match, `delete_many` filters, and `update_one` rewrites the first
match.  The external bcrypt hashing primitive and the HMAC signature of
the JWT library are modelled abstractly but executably.
-/

namespace MyJet

/-- Embedding of `models.UserCreate` (the registration form data). -/
structure UserCreate where
  login_id : String
  email : String
  birth_date : String
  sex : String
  full_name : String
  password : String
deriving DecidableEq, Repr

/-- Embedding of `models.UserInDB`: the stored user record.  `mileage`
defaults to 0, exactly as in `models.py`. -/
structure UserInDB where
  login_id : String
  email : String
  birth_date : String
  sex : String
  full_name : String
  hashed_password : String
  mileage : Int := 0
deriving DecidableEq, Repr

/-- Embedding of `models.TicketCreate` (the booking form data). -/
structure TicketCreate where
  starting_point : String
  ending_point : String
  departure_date : String
  jet_type : String
deriving DecidableEq, Repr

/-- Embedding of `models.TicketInDB`: the stored ticket record. -/
structure TicketInDB where
  starting_point : String
  ending_point : String
  departure_date : String
  jet_type : String
  owner_login_id : String
deriving DecidableEq, Repr

/-- The two MongoDB collections of `database.py`, in insertion order. -/
structure DB where
  user_collection : List UserInDB
  ticket_collection : List TicketInDB
deriving DecidableEq, Repr

/-- Mongo `update_one`: rewrite the first element satisfying `p` with `f`. -/
def updateOne {α : Type} (l : List α) (p : α → Bool) (f : α → α) : List α :=
  match l with
  | [] => []
  | x :: xs => if p x then f x :: xs else x :: updateOne xs p f

/-- Mongo `delete_one`: remove the first element satisfying `p`. -/
def deleteOne {α : Type} (l : List α) (p : α → Bool) : List α :=
  match l with
  | [] => []
  | x :: xs => if p x then xs else x :: deleteOne xs p

/-- Stand-in for the external bcrypt primitive `auth.get_hashed_password`;
the hash is out of scope (delegated library), so an injective executable
tag function models it. -/
def get_hashed_password (password : String) : String :=
  "bcrypt:" ++ password

/-- Embedding of `crud.is_duplicate_login_id`: true iff `find_one` on
`login_id` returns a document. -/
def is_duplicate_login_id (db : DB) (user_login_id : String) : Bool :=
  (db.user_collection.find? (fun u => u.login_id == user_login_id)).isSome

/-- Embedding of `crud.is_duplicate_email`: true iff `find_one` on
`email` returns a document. -/
def is_duplicate_email (db : DB) (user_email : String) : Bool :=
  (db.user_collection.find? (fun u => u.email == user_email)).isSome

/-- The `UserInDB` document that `crud.create_user` inserts: the form
fields, the hashed password, and the defaulted `mileage = 0`. -/
def store_user_of (new_user : UserCreate) : UserInDB :=
  { login_id := new_user.login_id
    email := new_user.email
    birth_date := new_user.birth_date
    sex := new_user.sex
    full_name := new_user.full_name
    hashed_password := get_hashed_password new_user.password }

/-- Embedding of `crud.create_user`: duplicate `login_id` is checked
first, then duplicate `email`; otherwise the new record is inserted.
Returns the message string of the Python function and the new state. -/
def create_user (db : DB) (new_user : UserCreate) : String × DB :=
  if is_duplicate_login_id db new_user.login_id then
    ("duplicate login_id", db)
  else if is_duplicate_email db new_user.email then
    ("duplicate email", db)
  else
    ("Welcome " ++ new_user.full_name ++ ". Your login id is <" ++
       new_user.login_id ++ ">. Please login again.",
     { db with user_collection := db.user_collection ++ [store_user_of new_user] })

/-- Embedding of `crud.delete_user`: `delete_one` on the user's login id. -/
def delete_user (db : DB) (user : UserInDB) : String × DB :=
  let users := deleteOne db.user_collection (fun u => u.login_id == user.login_id)
  ("Your account with login id: <" ++ user.login_id ++ "> has been deleted!",
   { db with user_collection := users })

/-- Embedding of `crud.ticket_is_valid`: reject when the endpoints
coincide, otherwise scan every stored ticket and reject when one has the
same `departure_date` and the same `owner_login_id` as the candidate. -/
def ticket_is_valid (db : DB) (ticket : TicketInDB) : Bool :=
  if ticket.starting_point == ticket.ending_point then
    false
  else
    !(db.ticket_collection.any (fun t =>
        t.departure_date == ticket.departure_date &&
        t.owner_login_id == ticket.owner_login_id))

/-- Embedding of `crud.update_user_mileage`: `$inc` the first user whose
`login_id` matches by 100. -/
def update_user_mileage (db : DB) (user : UserInDB) : String × DB :=
  let users := updateOne db.user_collection (fun u => u.login_id == user.login_id)
    (fun u => { u with mileage := u.mileage + 100 })
  ("You got 100 mileages!", { db with user_collection := users })

/-- The `TicketInDB` document built by `crud.create_ticket` from the form
data and the authenticated user's login id. -/
def ticket_of (new_ticket : TicketCreate) (user : UserInDB) : TicketInDB :=
  { starting_point := new_ticket.starting_point
    ending_point := new_ticket.ending_point
    departure_date := new_ticket.departure_date
    jet_type := new_ticket.jet_type
    owner_login_id := user.login_id }

/-- Embedding of `crud.create_ticket`: validate, and on success insert the
ticket and award 100 mileage; on failure return `none` and leave the
state unchanged. -/
def create_ticket (db : DB) (user : UserInDB) (new_ticket : TicketCreate) :
    Option String × DB :=
  let store_ticket := ticket_of new_ticket user
  if ticket_is_valid db store_ticket then
    let db1 : DB := { db with ticket_collection := db.ticket_collection ++ [store_ticket] }
    let upd := update_user_mileage db1 user
    (some ("new ticket has added!" ++ upd.1), upd.2)
  else
    (none, db)

/-- Embedding of `crud.cancel_every_ticket`: `delete_many` the user's
tickets, then `$set` the user's mileage to 0. -/
def cancel_every_ticket (db : DB) (user : UserInDB) : String × DB :=
  let tickets := db.ticket_collection.filter (fun t => !(t.owner_login_id == user.login_id))
  let users := updateOne db.user_collection (fun u => u.login_id == user.login_id)
    (fun u => { u with mileage := 0 })
  ("Your tickets are all deleted.", { user_collection := users, ticket_collection := tickets })

/-- Embedding of `crud.cancel_ticket_by_departure_date`: `find_one` on the
date only (any owner); if nothing matches return `none`, otherwise
`delete_one` on date and owner and `$inc` the user's mileage by -100. -/
def cancel_ticket_by_departure_date (db : DB) (cancel_date : String)
    (user : UserInDB) : Option String × DB :=
  match db.ticket_collection.find? (fun t => t.departure_date == cancel_date) with
  | none => (none, db)
  | some _ =>
    let tickets := deleteOne db.ticket_collection
      (fun t => t.departure_date == cancel_date && t.owner_login_id == user.login_id)
    let users := updateOne db.user_collection (fun u => u.login_id == user.login_id)
      (fun u => { u with mileage := u.mileage - 100 })
    (some ("Your flight on " ++ cancel_date ++ " has been deleted."),
     { user_collection := users, ticket_collection := tickets })

/-- Embedding of a decoded JWT claim set: the `sub` claim written by
`main.login_for_access_token` and the `exp` claim written by
`auth.create_access_token`.  Time is in seconds. -/
structure JWTPayload where
  sub : Option String
  exp : Nat
deriving DecidableEq, Repr

/-- Embedding of an encoded JWT.  The HMAC-SHA256 signature of the `jose`
library is modelled abstractly: a token records the key it was signed
with, and verification succeeds exactly when that key equals the
verifier's key. -/
structure JWTToken where
  payload : JWTPayload
  mac_key : String
deriving DecidableEq, Repr

/-- The `jose` error hierarchy relevant here: `ExpiredSignatureError` is
a subclass of `JWTError`, so `except JWTError` catches both. -/
inductive JoseError where
  | jwtError : JoseError
  | expiredSignatureError : JoseError
deriving DecidableEq, Repr

/-- Embedding of `auth.SECRET_KEY`. -/
def SECRET_KEY : String :=
  "a909dbfad5cc941fc277e3ec56efd63aadafed50197baab4a35ab4a4a4914a51"

/-- Embedding of `auth.ACCESS_TOKEN_EXPIRE_MINUTES`. -/
def ACCESS_TOKEN_EXPIRE_MINUTES : Nat := 10

/-- Embedding of `jose.jwt.decode`: the signature is verified first
(`JWTError` on mismatch), then the `exp` claim is validated
(`ExpiredSignatureError` when `exp` lies strictly in the past). -/
def jwt_decode (token : JWTToken) (key : String) (now : Nat) :
    Except JoseError JWTPayload :=
  if token.mac_key ≠ key then
    .error .jwtError
  else if token.payload.exp < now then
    .error .expiredSignatureError
  else
    .ok token.payload

/-- Embedding of `auth.create_access_token`: the expiry is `now` plus the
given delta, or 15 minutes by default, and the payload is signed with
`SECRET_KEY`. -/
def create_access_token (data : Option String) (now : Nat)
    (expires_delta : Option Nat) : JWTToken :=
  let expire : Nat :=
    match expires_delta with
    | some delta => now + delta
    | none => now + 15 * 60
  { payload := { sub := data, exp := expire }, mac_key := SECRET_KEY }

/-- Embedding of `auth.get_user_by_login_id`: `find_one` on `login_id`. -/
def get_user_by_login_id (db : DB) (user_login_id : String) : Option UserInDB :=
  db.user_collection.find? (fun u => u.login_id == user_login_id)

/-- Embedding of FastAPI's `HTTPException` as raised by `auth.py`. -/
structure HTTPExceptionModel where
  status_code : Nat
  detail : String
deriving DecidableEq, Repr

/-- The single `credential_exception` of `auth.get_current_user_by_token`:
a 401 response raised for every failure mode of that function. -/
def credential_exception : HTTPExceptionModel :=
  { status_code := 401, detail := "couldn't validate credentials" }

/-- Embedding of `auth.get_current_user_by_token`: decode the token (the
`except JWTError` clause turns every `jose` error, expiry included, into
`credential_exception`), extract the `sub` claim, and look the user up;
a missing subject or an unknown user also raises `credential_exception`. -/
def get_current_user_by_token (db : DB) (token : JWTToken) (now : Nat) :
    Except HTTPExceptionModel UserInDB :=
  match jwt_decode token SECRET_KEY now with
  | .error _ => .error credential_exception
  | .ok payload =>
    match payload.sub with
    | none => .error credential_exception
    | some login_id =>
      match get_user_by_login_id db login_id with
      | none => .error credential_exception
      | some user => .ok user

/-- `update_one` rewrites exactly the first match: with no match in the
prefix and a match at `v`, only `v` is rewritten and order is kept. -/
theorem updateOne_append {α : Type} (l1 l2 : List α) (v : α) (p : α → Bool)
    (f : α → α) (h1 : ∀ w ∈ l1, p w = false) (hv : p v = true) :
    updateOne (l1 ++ v :: l2) p f = l1 ++ f v :: l2 := by
  induction l1 with
  | nil => simp [updateOne, hv]
  | cons x xs ih =>
    have hx : p x = false := h1 x (by simp)
    simp only [List.cons_append, updateOne, hx, Bool.false_eq_true, if_false,
      List.cons.injEq, true_and]
    exact ih (fun w hw => h1 w (by simp [hw]))

/-- Looking up by a predicate that `f` preserves, after `update_one` on
that predicate, finds the image of the old result. -/
theorem find?_updateOne {α : Type} (l : List α) (p : α → Bool) (f : α → α)
    (hf : ∀ x, p (f x) = p x) :
    (updateOne l p f).find? p = (l.find? p).map f := by
  induction l with
  | nil => simp [updateOne]
  | cons x xs ih =>
    by_cases hx : p x = true
    · rw [updateOne]
      simp only [hx, if_true]
      rw [List.find?_cons_of_pos _ (by rw [hf]; exact hx),
        List.find?_cons_of_pos _ hx, Option.map_some']
    · have hx' : p x = false := by simpa using hx
      rw [updateOne]
      simp only [hx', Bool.false_eq_true, if_false]
      rw [List.find?_cons_of_neg _ (by simp [hx']),
        List.find?_cons_of_neg _ (by simp [hx']), ih]

/-- `delete_one` with a predicate false on every element is the identity. -/
theorem deleteOne_eq_self {α : Type} (l : List α) (p : α → Bool)
    (h : ∀ x ∈ l, p x = false) :
    deleteOne l p = l := by
  induction l with
  | nil => rfl
  | cons x xs ih =>
    have hx : p x = false := h x (by simp)
    simp only [deleteOne, hx, Bool.false_eq_true, if_false, List.cons.injEq, true_and]
    exact ih (fun w hw => h w (by simp [hw]))

/-- Characterisation of the booking validator on candidates with distinct
endpoints: it returns `false` exactly when some stored ticket shares both
the departure date and the owner with the candidate. -/
theorem ticket_is_valid_eq_false_iff (db : DB) (cand : TicketInDB)
    (hne : cand.starting_point ≠ cand.ending_point) :
    ticket_is_valid db cand = false ↔
      ∃ t ∈ db.ticket_collection,
        t.departure_date = cand.departure_date ∧
        t.owner_login_id = cand.owner_login_id := by
  rw [ticket_is_valid]
  simp [hne, List.any_eq_true]

/-- A stored ticket used as concrete test data: bob flies on 2024-06-01. -/
def bobTicketC2 : TicketInDB :=
  { starting_point := "SEA", ending_point := "LAX", departure_date := "2024-06-01",
    jet_type := "light", owner_login_id := "bob" }

/-- A candidate ticket of alice on the same date as bob's ticket. -/
def aliceCandC2 : TicketInDB :=
  { starting_point := "SFO", ending_point := "JFK", departure_date := "2024-06-01",
    jet_type := "heavy", owner_login_id := "alice" }

/-- A ticket store holding only bob's 2024-06-01 ticket. -/
def dbC2 : DB := { user_collection := [], ticket_collection := [bobTicketC2] }

/-- C2: the claim says the validator rejects a candidate whenever ANY
existing ticket, regardless of owner, has the same departure date.
Counterexample: bob already holds a ticket on 2024-06-01, yet alice's
candidate for 2024-06-01 is accepted (`ticket_is_valid` returns `true`),
because the code also compares `owner_login_id`. -/
theorem c2_counterexample :
    (∃ t ∈ dbC2.ticket_collection,
       t.departure_date = aliceCandC2.departure_date) ∧
    aliceCandC2.starting_point ≠ aliceCandC2.ending_point ∧
    ticket_is_valid dbC2 aliceCandC2 = true := by
  refine ⟨⟨bobTicketC2, by simp [dbC2], rfl⟩, by decide, by decide⟩

/-- C2 (amended): the validator scans the tickets of all users, but a
candidate with distinct endpoints is rejected exactly when some existing
ticket matches it on BOTH `departure_date` and `owner_login_id`; a date
collision with a different owner does not cause rejection. -/
theorem c2_amended_validator_scope (db : DB) (cand : TicketInDB)
    (hne : cand.starting_point ≠ cand.ending_point) :
    ticket_is_valid db cand = false ↔
      ∃ t ∈ db.ticket_collection,
        t.departure_date = cand.departure_date ∧
        t.owner_login_id = cand.owner_login_id :=
  ticket_is_valid_eq_false_iff db cand hne

/-- C2 amended theorem instantiated: alice's candidate against bob's
same-date ticket is not rejected, since no stored ticket matches both
fields. -/
theorem c2_amended_witness :
    ticket_is_valid dbC2 aliceCandC2 = false ↔
      ∃ t ∈ dbC2.ticket_collection,
        t.departure_date = aliceCandC2.departure_date ∧
        t.owner_login_id = aliceCandC2.owner_login_id :=
  c2_amended_validator_scope dbC2 aliceCandC2 (by decide)

/-- C3: for a candidate with distinct endpoints, `create_ticket` refuses
(returns `none`) exactly when some stored ticket has the same departure
date AND the same owner as the requesting user, and on success the new
ticket is appended to the store. -/
theorem c3_owner_scoped_duplicate_date (db : DB) (user : UserInDB)
    (nt : TicketCreate) (hne : nt.starting_point ≠ nt.ending_point) :
    ((create_ticket db user nt).1 = none ↔
       ∃ t ∈ db.ticket_collection,
         t.departure_date = nt.departure_date ∧
         t.owner_login_id = user.login_id) ∧
    ((create_ticket db user nt).1 ≠ none →
       (create_ticket db user nt).2.ticket_collection =
         db.ticket_collection ++ [ticket_of nt user]) := by
  have hv := ticket_is_valid_eq_false_iff db (ticket_of nt user)
    (by simpa [ticket_of] using hne)
  simp only [ticket_of] at hv
  cases hb : ticket_is_valid db (ticket_of nt user) with
  | false =>
    have hex := hv.mp hb
    constructor
    · constructor
      · intro _
        exact hex
      · intro _
        rw [create_ticket]
        simp [hb]
    · intro hsome
      exfalso
      apply hsome
      rw [create_ticket]
      simp [hb]
  | true =>
    constructor
    · constructor
      · intro h1
        exfalso
        rw [create_ticket] at h1
        simp [hb] at h1
      · intro hex
        exfalso
        have hfalse := hv.mpr hex
        simp only [ticket_of] at hb
        rw [hb] at hfalse
        exact Bool.noConfusion hfalse
    · intro _
      rw [create_ticket]
      simp [hb, update_user_mileage]

/-- A registered user record for alice with 0 mileage. -/
def aliceUserC3 : UserInDB :=
  { login_id := "alice", email := "alice@example.com", birth_date := "20000101",
    sex := "female", full_name := "Alice Doe", hashed_password := "bcrypt:pw" }

/-- Booking form data: alice asks for SFO to JFK on 2024-06-01. -/
def ntC3 : TicketCreate :=
  { starting_point := "SFO", ending_point := "JFK",
    departure_date := "2024-06-01", jet_type := "heavy" }

/-- A store where alice already holds a ticket on 2024-06-01. -/
def dbC3 : DB :=
  { user_collection := [aliceUserC3],
    ticket_collection :=
      [{ starting_point := "SEA", ending_point := "LAX",
         departure_date := "2024-06-01", jet_type := "light",
         owner_login_id := "alice" }] }

/-- C3 theorem instantiated: alice, who already flies on 2024-06-01, is
refused a second booking on that date. -/
theorem c3_witness :
    ((create_ticket dbC3 aliceUserC3 ntC3).1 = none ↔
       ∃ t ∈ dbC3.ticket_collection,
         t.departure_date = ntC3.departure_date ∧
         t.owner_login_id = aliceUserC3.login_id) ∧
    ((create_ticket dbC3 aliceUserC3 ntC3).1 ≠ none →
       (create_ticket dbC3 aliceUserC3 ntC3).2.ticket_collection =
         dbC3.ticket_collection ++ [ticket_of ntC3 aliceUserC3]) :=
  c3_owner_scoped_duplicate_date dbC3 aliceUserC3 ntC3 (by decide)

/-- C7: a candidate whose starting point equals its ending point is
always rejected: `create_ticket` returns `none` and leaves the whole
state (tickets and users, hence mileage) unchanged, whatever the other
fields and the current store. -/
theorem c7_same_endpoints_always_rejected (db : DB) (user : UserInDB)
    (nt : TicketCreate) (heq : nt.starting_point = nt.ending_point) :
    create_ticket db user nt = (none, db) := by
  have hv : ticket_is_valid db (ticket_of nt user) = false := by
    rw [ticket_is_valid]
    simp [ticket_of, heq]
  rw [create_ticket]
  simp [hv]

/-- Degenerate booking form data: a flight from SEA to SEA. -/
def ntC7 : TicketCreate :=
  { starting_point := "SEA", ending_point := "SEA",
    departure_date := "2024-07-04", jet_type := "light" }

/-- C7 theorem instantiated: the SEA-to-SEA booking is refused and the
store `dbC3` is untouched. -/
theorem c7_witness :
    ntC7.starting_point = ntC7.ending_point ∧
    create_ticket dbC3 aliceUserC3 ntC7 = (none, dbC3) :=
  ⟨rfl, c7_same_endpoints_always_rejected dbC3 aliceUserC3 ntC7 rfl⟩

/-- A registered user record for alice holding 100 mileage. -/
def aliceUserC1 : UserInDB :=
  { login_id := "alice", email := "alice@example.com", birth_date := "20000101",
    sex := "female", full_name := "Alice Doe", hashed_password := "bcrypt:pw",
    mileage := 100 }

/-- A store where only bob (not alice) has a ticket on 2024-06-01. -/
def dbC1 : DB :=
  { user_collection := [aliceUserC1],
    ticket_collection :=
      [{ starting_point := "SEA", ending_point := "LAX",
         departure_date := "2024-06-01", jet_type := "light",
         owner_login_id := "bob" }] }

/-- C1: the claim says cancel-one returns `none` (404) if and only if the
calling user owns no ticket on the cancel date.  Counterexample: alice
owns no ticket on 2024-06-01 (only bob does), yet the call returns a
success message instead of `none`, because `find_one` filters on the
date alone. -/
theorem c1_counterexample :
    (∀ t ∈ dbC1.ticket_collection,
       ¬(t.departure_date = "2024-06-01" ∧
         t.owner_login_id = aliceUserC1.login_id)) ∧
    (cancel_ticket_by_departure_date dbC1 "2024-06-01" aliceUserC1).1 =
      some "Your flight on 2024-06-01 has been deleted." := by
  exact ⟨by decide, rfl⟩

/-- C1 (amended): cancel-one returns `none` (surfaced as 404) if and only
if NO ticket of ANY owner has the cancel date; otherwise it returns a
success message and performs `delete_one` scoped to the date and the
calling user — deleting that user's first matching ticket when one
exists, and nothing at all otherwise. -/
theorem c1_amended_cancel_one (db : DB) (cancel_date : String)
    (user : UserInDB) :
    ((cancel_ticket_by_departure_date db cancel_date user).1 = none ↔
       ∀ t ∈ db.ticket_collection, t.departure_date ≠ cancel_date) ∧
    ((cancel_ticket_by_departure_date db cancel_date user).1 ≠ none →
       (cancel_ticket_by_departure_date db cancel_date user).2.ticket_collection =
         deleteOne db.ticket_collection
           (fun t => t.departure_date == cancel_date &&
             t.owner_login_id == user.login_id)) := by
  cases hf : db.ticket_collection.find? (fun t => t.departure_date == cancel_date) with
  | none =>
    have hall := List.find?_eq_none.mp hf
    constructor
    · rw [cancel_ticket_by_departure_date, hf]
      simp only [true_iff]
      intro t ht
      simpa using hall t ht
    · intro hsome
      exfalso
      apply hsome
      rw [cancel_ticket_by_departure_date, hf]
  | some t0 =>
    have hmem := List.mem_of_find?_eq_some hf
    have hp : t0.departure_date = cancel_date := by
      simpa using List.find?_some hf
    constructor
    · rw [cancel_ticket_by_departure_date, hf]
      simp only [reduceCtorEq, false_iff, not_forall]
      exact ⟨t0, hmem, by simp [hp]⟩
    · intro _
      rw [cancel_ticket_by_departure_date, hf]

/-- C1 amended theorem instantiated at `dbC1`: bob has a 2024-06-01
ticket, so the call does not return `none` and the ticket store is the
result of the owner-and-date scoped `delete_one`. -/
theorem c1_amended_witness :
    ((cancel_ticket_by_departure_date dbC1 "2024-06-01" aliceUserC1).1 = none ↔
       ∀ t ∈ dbC1.ticket_collection, t.departure_date ≠ "2024-06-01") ∧
    ((cancel_ticket_by_departure_date dbC1 "2024-06-01" aliceUserC1).1 ≠ none →
       (cancel_ticket_by_departure_date dbC1 "2024-06-01" aliceUserC1).2.ticket_collection =
         deleteOne dbC1.ticket_collection
           (fun t => t.departure_date == "2024-06-01" &&
             t.owner_login_id == aliceUserC1.login_id)) :=
  c1_amended_cancel_one dbC1 "2024-06-01" aliceUserC1

/-- C9: when some ticket of ANY owner has the cancel date but the calling
user owns none on that date, cancel-one returns the success message,
deletes nothing, and still debits the calling user 100 mileage - the
user is found through the same login-id lookup and its mileage field is
decremented while no ticket is removed. -/
theorem c9_foreign_date_cancel (db : DB) (cancel_date : String)
    (user : UserInDB)
    (hsome : ∃ t ∈ db.ticket_collection, t.departure_date = cancel_date)
    (hnone : ∀ t ∈ db.ticket_collection,
       t.departure_date = cancel_date → t.owner_login_id ≠ user.login_id) :
    (cancel_ticket_by_departure_date db cancel_date user).1 =
      some ("Your flight on " ++ cancel_date ++ " has been deleted.") ∧
    (cancel_ticket_by_departure_date db cancel_date user).2.ticket_collection =
      db.ticket_collection ∧
    ((cancel_ticket_by_departure_date db cancel_date user).2.user_collection.find?
        (fun u => u.login_id == user.login_id)) =
      (db.user_collection.find? (fun u => u.login_id == user.login_id)).map
        (fun u => { u with mileage := u.mileage - 100 }) := by
  obtain ⟨t1, ht1, hd1⟩ := hsome
  have hfind : (db.ticket_collection.find?
      (fun t => t.departure_date == cancel_date)).isSome := by
    rw [List.find?_isSome]
    exact ⟨t1, ht1, by simp [hd1]⟩
  obtain ⟨t0, hf⟩ := Option.isSome_iff_exists.mp hfind
  have hdel : deleteOne db.ticket_collection
      (fun t => t.departure_date == cancel_date &&
        t.owner_login_id == user.login_id) = db.ticket_collection := by
    apply deleteOne_eq_self
    intro t ht
    by_cases hd : t.departure_date = cancel_date
    · have := hnone t ht hd
      simp [hd, this]
    · simp [hd]
  refine ⟨?_, ?_, ?_⟩
  · rw [cancel_ticket_by_departure_date, hf]
  · rw [cancel_ticket_by_departure_date, hf]
    exact hdel
  · rw [cancel_ticket_by_departure_date, hf]
    exact find?_updateOne db.user_collection _ _ (fun x => rfl)

/-- A store for the C9 scenario: alice is registered with 100 mileage and
only bob has a ticket on 2024-06-01. -/
def dbC9 : DB :=
  { user_collection :=
      [{ login_id := "alice", email := "alice@example.com",
         birth_date := "20000101", sex := "female", full_name := "Alice Doe",
         hashed_password := "bcrypt:pw", mileage := 100 }],
    ticket_collection :=
      [{ starting_point := "SEA", ending_point := "LAX",
         departure_date := "2024-06-01", jet_type := "light",
         owner_login_id := "bob" }] }

/-- The calling user record for the C9 scenario. -/
def aliceUserC9 : UserInDB :=
  { login_id := "alice", email := "alice@example.com", birth_date := "20000101",
    sex := "female", full_name := "Alice Doe", hashed_password := "bcrypt:pw",
    mileage := 100 }

/-- C9 theorem instantiated: alice cancels 2024-06-01 owning no ticket on
it while bob does; the call reports success, deletes nothing, and debits
alice 100 mileage. -/
theorem c9_witness :
    (cancel_ticket_by_departure_date dbC9 "2024-06-01" aliceUserC9).1 =
      some ("Your flight on " ++ "2024-06-01" ++ " has been deleted.") ∧
    (cancel_ticket_by_departure_date dbC9 "2024-06-01" aliceUserC9).2.ticket_collection =
      dbC9.ticket_collection ∧
    ((cancel_ticket_by_departure_date dbC9 "2024-06-01" aliceUserC9).2.user_collection.find?
        (fun u => u.login_id == aliceUserC9.login_id)) =
      (dbC9.user_collection.find? (fun u => u.login_id == aliceUserC9.login_id)).map
        (fun u => { u with mileage := u.mileage - 100 }) :=
  c9_foreign_date_cancel dbC9 "2024-06-01" aliceUserC9
    ⟨{ starting_point := "SEA", ending_point := "LAX",
       departure_date := "2024-06-01", jet_type := "light",
       owner_login_id := "bob" }, by simp [dbC9], rfl⟩
    (by decide)

/-- C4: against a user store that holds exactly one record with the
caller's login id, a successful booking rewrites only that record,
adding exactly 100 to its mileage; a successful cancel-one subtracts
exactly 100; cancel-all sets it to exactly 0.  In each case every other
field of the record and every other record is unchanged. -/
theorem c4_mileage_ledger (db : DB) (l1 l2 : List UserInDB) (v user : UserInDB)
    (nt : TicketCreate) (cancel_date : String)
    (hdb : db.user_collection = l1 ++ v :: l2)
    (hv : v.login_id = user.login_id)
    (hl1 : ∀ w ∈ l1, w.login_id ≠ user.login_id) :
    ((create_ticket db user nt).1.isSome →
       (create_ticket db user nt).2.user_collection =
         l1 ++ { v with mileage := v.mileage + 100 } :: l2) ∧
    ((cancel_ticket_by_departure_date db cancel_date user).1.isSome →
       (cancel_ticket_by_departure_date db cancel_date user).2.user_collection =
         l1 ++ { v with mileage := v.mileage - 100 } :: l2) ∧
    (cancel_every_ticket db user).2.user_collection =
      l1 ++ { v with mileage := 0 } :: l2 := by
  have hp1 : ∀ w ∈ l1, (fun u : UserInDB => u.login_id == user.login_id) w = false := by
    intro w hw
    simpa using hl1 w hw
  have hpv : (fun u : UserInDB => u.login_id == user.login_id) v = true := by
    simpa using hv
  have hup : ∀ f : UserInDB → UserInDB,
      updateOne db.user_collection (fun u => u.login_id == user.login_id) f =
        l1 ++ f v :: l2 := by
    intro f
    rw [hdb]
    exact updateOne_append l1 l2 v _ f hp1 hpv
  refine ⟨?_, ?_, ?_⟩
  · intro hs
    cases hb : ticket_is_valid db (ticket_of nt user) with
    | false =>
      rw [create_ticket] at hs
      simp [hb] at hs
    | true =>
      rw [create_ticket]
      simp only [hb, if_true, update_user_mileage]
      exact hup _
  · intro hs
    cases hf : db.ticket_collection.find? (fun t => t.departure_date == cancel_date) with
    | none =>
      rw [cancel_ticket_by_departure_date, hf] at hs
      simp at hs
    | some t0 =>
      rw [cancel_ticket_by_departure_date, hf]
      exact hup _
  · rw [cancel_every_ticket]
    exact hup _

/-- A bystander user record, placed before alice in the store. -/
def bobUserC4 : UserInDB :=
  { login_id := "bob", email := "bob@example.com", birth_date := "19990101",
    sex := "male", full_name := "Bob Roe", hashed_password := "bcrypt:pw2",
    mileage := 100 }

/-- The acting user record for the C4 scenario, holding 100 mileage. -/
def aliceUserC4 : UserInDB :=
  { login_id := "alice", email := "alice@example.com", birth_date := "20000101",
    sex := "female", full_name := "Alice Doe", hashed_password := "bcrypt:pw",
    mileage := 100 }

/-- A store with users bob then alice, and bob's 2024-06-01 ticket. -/
def dbC4 : DB :=
  { user_collection := [bobUserC4, aliceUserC4],
    ticket_collection :=
      [{ starting_point := "SEA", ending_point := "LAX",
         departure_date := "2024-06-01", jet_type := "light",
         owner_login_id := "bob" }] }

/-- Conflict-free booking form data for the C4 scenario. -/
def ntC4 : TicketCreate :=
  { starting_point := "SFO", ending_point := "JFK",
    departure_date := "2024-06-02", jet_type := "heavy" }

/-- C4 theorem instantiated at `dbC4` for alice, with bob before her in
the store. -/
theorem c4_witness :
    ((create_ticket dbC4 aliceUserC4 ntC4).1.isSome →
       (create_ticket dbC4 aliceUserC4 ntC4).2.user_collection =
         [bobUserC4] ++ { aliceUserC4 with mileage := aliceUserC4.mileage + 100 } :: []) ∧
    ((cancel_ticket_by_departure_date dbC4 "2024-06-01" aliceUserC4).1.isSome →
       (cancel_ticket_by_departure_date dbC4 "2024-06-01" aliceUserC4).2.user_collection =
         [bobUserC4] ++ { aliceUserC4 with mileage := aliceUserC4.mileage - 100 } :: []) ∧
    (cancel_every_ticket dbC4 aliceUserC4).2.user_collection =
      [bobUserC4] ++ { aliceUserC4 with mileage := 0 } :: [] :=
  c4_mileage_ledger dbC4 [bobUserC4] [] aliceUserC4 aliceUserC4 ntC4 "2024-06-01"
    rfl rfl (by decide)

/-- C8: registration rejects a duplicate `login_id` with the
"duplicate login_id" outcome (surfaced as 409) and leaves the store
unchanged; with a fresh `login_id` but duplicate `email` it rejects with
"duplicate email" and leaves the store unchanged; with both fresh it
appends the new record.  The `login_id` check runs first, so it wins
when both duplicates are present. -/
theorem c8_registration_duplicates (db : DB) (nu : UserCreate) :
    (is_duplicate_login_id db nu.login_id = true →
       create_user db nu = ("duplicate login_id", db)) ∧
    (is_duplicate_login_id db nu.login_id = false →
       is_duplicate_email db nu.email = true →
       create_user db nu = ("duplicate email", db)) ∧
    (is_duplicate_login_id db nu.login_id = false →
       is_duplicate_email db nu.email = false →
       create_user db nu =
         ("Welcome " ++ nu.full_name ++ ". Your login id is <" ++ nu.login_id ++
            ">. Please login again.",
          { db with user_collection := db.user_collection ++ [store_user_of nu] })) := by
  refine ⟨?_, ?_, ?_⟩
  · intro h1
    rw [create_user]
    simp [h1]
  · intro h1 h2
    rw [create_user]
    simp [h1, h2]
  · intro h1 h2
    rw [create_user]
    simp [h1, h2]

/-- A store holding one registered user (alice). -/
def dbC8 : DB :=
  { user_collection :=
      [{ login_id := "alice", email := "alice@example.com",
         birth_date := "20000101", sex := "female", full_name := "Alice Doe",
         hashed_password := "bcrypt:pw", mileage := 0 }],
    ticket_collection := [] }

/-- Registration form data reusing alice's login id. -/
def nuDupC8 : UserCreate :=
  { login_id := "alice", email := "other@example.com", birth_date := "19980101",
    sex := "female", full_name := "Other Alice", password := "pw3" }

/-- Registration form data with fresh login id and email. -/
def nuFreshC8 : UserCreate :=
  { login_id := "carol", email := "carol@example.com", birth_date := "19970101",
    sex := "female", full_name := "Carol Poe", password := "pw4" }

/-- C8 theorem instantiated: re-registering login id "alice" is refused
and the store is unchanged, while registering fresh "carol" appends her
record. -/
theorem c8_witness :
    create_user dbC8 nuDupC8 = ("duplicate login_id", dbC8) ∧
    create_user dbC8 nuFreshC8 =
      ("Welcome " ++ nuFreshC8.full_name ++ ". Your login id is <" ++
         nuFreshC8.login_id ++ ">. Please login again.",
       { dbC8 with user_collection := dbC8.user_collection ++ [store_user_of nuFreshC8] }) :=
  ⟨(c8_registration_duplicates dbC8 nuDupC8).1 rfl,
   (c8_registration_duplicates dbC8 nuFreshC8).2.2 rfl rfl⟩

/-- C10: every record present in the user store after `create_user` was
either already there or carries mileage 0 - so any record actually
created by registration starts at 0 mileage, whatever the form data. -/
theorem c10_new_users_start_at_zero (db : DB) (nu : UserCreate) (u : UserInDB)
    (hmem : u ∈ (create_user db nu).2.user_collection) :
    u ∈ db.user_collection ∨ u.mileage = 0 := by
  by_cases h1 : is_duplicate_login_id db nu.login_id = true
  · rw [create_user] at hmem
    simp only [h1, if_true] at hmem
    exact Or.inl hmem
  · have h1' : is_duplicate_login_id db nu.login_id = false := by
      simpa using h1
    by_cases h2 : is_duplicate_email db nu.email = true
    · rw [create_user] at hmem
      simp only [h1', h2, Bool.false_eq_true, if_false, if_true] at hmem
      exact Or.inl hmem
    · have h2' : is_duplicate_email db nu.email = false := by
        simpa using h2
      rw [create_user] at hmem
      simp only [h1', h2', Bool.false_eq_true, if_false, List.mem_append,
        List.mem_singleton] at hmem
      cases hmem with
      | inl h => exact Or.inl h
      | inr h =>
        right
        rw [h]
        rfl

/-- Registration form data for the C10 scenario. -/
def nuC10 : UserCreate :=
  { login_id := "dave", email := "dave@example.com", birth_date := "19960101",
    sex := "male", full_name := "Dave Moe", password := "pw5" }

/-- An empty store for the C10 scenario. -/
def dbC10 : DB := { user_collection := [], ticket_collection := [] }

/-- C10 theorem instantiated: the record inserted for dave is in the
post-state, and since it was not pre-existing it carries mileage 0. -/
theorem c10_witness :
    store_user_of nuC10 ∈ (create_user dbC10 nuC10).2.user_collection ∧
    (store_user_of nuC10 ∈ dbC10.user_collection ∨
       (store_user_of nuC10).mileage = 0) :=
  ⟨by decide, c10_new_users_start_at_zero dbC10 nuC10 (store_user_of nuC10) (by decide)⟩

/-- A registered user record for the token-service scenarios. -/
def aliceC5 : UserInDB :=
  { login_id := "alice", email := "alice@example.com", birth_date := "20000101",
    sex := "female", full_name := "Alice Doe", hashed_password := "bcrypt:pw",
    mileage := 0 }

/-- A store holding only alice, for the token-service scenarios. -/
def dbC5 : DB := { user_collection := [aliceC5], ticket_collection := [] }

/-- C5: the claim says resolving an expired token fails with an Expired
error distinct from the generic Unauthenticated failure.
Counterexample: a token for alice issued at time 0 with a 600-second
delta, resolved at time 601, yields exactly `credential_exception` - the
very same 401 value produced for a token with an invalid signature -
because `except JWTError` also catches `ExpiredSignatureError`. -/
theorem c5_counterexample :
    get_current_user_by_token dbC5
        (create_access_token (some "alice") 0 (some 600)) 601 =
      .error credential_exception ∧
    get_current_user_by_token dbC5
        { payload := { sub := some "alice", exp := 9999 }, mac_key := "tampered" } 601 =
      .error credential_exception :=
  ⟨rfl, rfl⟩

/-- C5 (amended): issuing a token for an existing user's login id and
resolving it at or before the expiry instant returns that same user;
resolving it strictly after expiry fails, but with the SAME generic
401 `credential_exception` as every other failure mode - no distinct
Expired error is surfaced by `get_current_user_by_token`. -/
theorem c5_amended_issue_resolve (db : DB) (login_id : String)
    (user : UserInDB) (now delta t : Nat)
    (huser : get_user_by_login_id db login_id = some user) :
    (t ≤ now + delta →
       get_current_user_by_token db
           (create_access_token (some login_id) now (some delta)) t =
         .ok user) ∧
    (now + delta < t →
       get_current_user_by_token db
           (create_access_token (some login_id) now (some delta)) t =
         .error credential_exception) := by
  constructor
  · intro ht
    simp only [get_current_user_by_token, create_access_token, jwt_decode]
    rw [if_neg (by simp), if_neg (by omega)]
    simp [huser]
  · intro ht
    simp only [get_current_user_by_token, create_access_token, jwt_decode]
    rw [if_neg (by simp), if_pos ht]

/-- C5 amended theorem instantiated: alice's token issued at 0 with a
600-second delta resolves to alice at time 600 and to the generic 401
at time 601. -/
theorem c5_amended_witness :
    get_current_user_by_token dbC5
        (create_access_token (some "alice") 0 (some 600)) 600 = .ok aliceC5 ∧
    get_current_user_by_token dbC5
        (create_access_token (some "alice") 0 (some 600)) 601 =
      .error credential_exception :=
  ⟨(c5_amended_issue_resolve dbC5 "alice" aliceC5 0 600 600 rfl).1 (by norm_num),
   (c5_amended_issue_resolve dbC5 "alice" aliceC5 0 600 601 rfl).2 (by norm_num)⟩

/-- Registration form data for alice in the C6 trace. -/
def aliceCreateC6 : UserCreate :=
  { login_id := "alice", email := "alice@example.com", birth_date := "20000101",
    sex := "female", full_name := "Alice Doe", password := "pw1" }

/-- Registration form data for bob in the C6 trace. -/
def bobCreateC6 : UserCreate :=
  { login_id := "bob", email := "bob@example.com", birth_date := "19990101",
    sex := "male", full_name := "Bob Roe", password := "pw2" }

/-- Bob's booking form data in the C6 trace. -/
def ntC6 : TicketCreate :=
  { starting_point := "SEA", ending_point := "LAX",
    departure_date := "2024-06-01", jet_type := "light" }

/-- C6 trace, step 0: the empty store. -/
def dbC6s0 : DB := { user_collection := [], ticket_collection := [] }

/-- C6 trace, step 1: alice registers. -/
def dbC6s1 : DB := (create_user dbC6s0 aliceCreateC6).2

/-- C6 trace, step 2: bob registers. -/
def dbC6s2 : DB := (create_user dbC6s1 bobCreateC6).2

/-- C6 trace, step 3: bob (as resolved from the store) books 2024-06-01. -/
def dbC6s3 : DB :=
  (create_ticket dbC6s2
    ((get_user_by_login_id dbC6s2 "bob").getD (store_user_of bobCreateC6)) ntC6).2

/-- C6 trace, step 4: alice (as resolved from the store) calls cancel-one
on 2024-06-01, a date on which only bob holds a ticket. -/
def dbC6s4 : DB :=
  (cancel_ticket_by_departure_date dbC6s3 "2024-06-01"
    ((get_user_by_login_id dbC6s3 "alice").getD (store_user_of aliceCreateC6))).2

/-- C6: the mileage-nonnegativity invariant is reachable-state false.
Evaluating the four-step trace (register alice, register bob, bob books
2024-06-01, alice cancels 2024-06-01) leaves alice's stored record with
mileage -100: cancel-one's date-only `find_one` succeeds on bob's ticket
and the unconditional `$inc : -100` drives alice below zero. -/
theorem c6_negative_mileage_reachable :
    (get_user_by_login_id dbC6s4 "alice").map UserInDB.mileage =
      some (-100) ∧
    ∃ u ∈ dbC6s4.user_collection, u.mileage < 0 := by
  exact ⟨rfl, by decide⟩

end MyJet
